import Mathlib

/-!
Verification of the CKAN dashboard's reliable bulk-fetch and caching layer
(`src/dashboard.py`), as a shallow embedding.

HTTP is modelled by an environment (`ApiEnv`) that fixes, for every request the
script can issue, one of three outcomes: a 200 response with a well-formed JSON
body (`ok`), a non-200 status (`badStatus`), or a raised exception — timeout,
connection error, or malformed JSON body (`exn`).  Python functions that can
raise are embedded as `Except Unit`; `Except.error ()` is an uncaught exception
propagating to the caller.  Retries of the search pages are distinct HTTP
calls, so the page environment is indexed by page index and attempt number
(1-based, 1..3).  The `ThreadPoolExecutor`/`as_completed` pool of
`get_all_org_details_parallel` is modelled by an arbitrary completion order,
a permutation of the submitted identifiers.
-/

/-- One outcome of a single HTTP GET, as observed by the script. -/
inductive HttpOutcome (α : Type) where
  | ok (body : α)
  | badStatus (code : Nat)
  | exn
deriving DecidableEq

/-- `organization` sub-object of a dataset record; `none` fields are absent keys. -/
structure Organization where
  title : Option String
  name : Option String
deriving DecidableEq

/-- One entry of a dataset's `resources` list. -/
structure Resource where
  format : Option String
deriving DecidableEq

/-- One entry of a dataset's `tags` list. -/
structure Tag where
  name : Option String
deriving DecidableEq

/-- `tracking_summary` sub-object. -/
structure TrackingSummary where
  total : Option Int
deriving DecidableEq

/-- A dataset record from `package_search` / `package_show`, restricted to the
fields the script reads; `none` means the key is absent. -/
structure Dataset where
  title : Option String
  name : Option String
  organization : Option Organization
  resources : Option (List Resource)
  metadata_modified : Option String
  tags : Option (List Tag)
  tracking_summary : Option TrackingSummary
deriving DecidableEq

/-- An organization detail record from `organization_show`; `none` fields are
absent keys. -/
structure OrgDetail where
  name : Option String
  title : Option String
deriving DecidableEq

/-- The fixed behaviour of the remote API and of the filesystem during one run.
`search_page p a` is the outcome of attempt `a` (1..3) of the `package_search`
request with `start = 1000 * p`; `writeOk` tells whether the cache-file write
succeeds. -/
structure ApiEnv where
  organization_list : HttpOutcome (List String)
  package_list : HttpOutcome (List String)
  package_show : String → HttpOutcome Dataset
  organization_show : String → HttpOutcome OrgDetail
  search_count : HttpOutcome Nat
  search_page : Nat → Nat → HttpOutcome (List Dataset)
  writeOk : Bool

/-- `get_organizations` (dashboard.py:29-33): on 200 return the `result` list,
on any other status return `[]`; a transport exception is uncaught. -/
def get_organizations (env : ApiEnv) : Except Unit (List String) :=
  match env.organization_list with
  | .ok v => .ok v
  | .badStatus _ => .ok []
  | .exn => .error ()

/-- `get_datasets` (dashboard.py:36-40). -/
def get_datasets (env : ApiEnv) : Except Unit (List String) :=
  match env.package_list with
  | .ok v => .ok v
  | .badStatus _ => .ok []
  | .exn => .error ()

/-- `get_dataset_detail` (dashboard.py:43-47): `None` on non-200. -/
def get_dataset_detail (env : ApiEnv) (dataset_id : String) : Except Unit (Option Dataset) :=
  match env.package_show dataset_id with
  | .ok v => .ok (some v)
  | .badStatus _ => .ok none
  | .exn => .error ()

/-- `get_org_detail` (dashboard.py:50-54): `None` on non-200. -/
def get_org_detail (env : ApiEnv) (org_id : String) : Except Unit (Option OrgDetail) :=
  match env.organization_show org_id with
  | .ok v => .ok (some v)
  | .badStatus _ => .ok none
  | .exn => .error ()

/-- `get_dataset_count` (dashboard.py:57-63): the `rows=0` search; `0` on
non-200, uncaught exception otherwise. -/
def get_dataset_count (env : ApiEnv) : Except Unit Nat :=
  match env.search_count with
  | .ok n => .ok n
  | .badStatus _ => .ok 0
  | .exn => .error ()

/-- The inner retry loop of `_search_datasets_paginated_reliable`
(dashboard.py:80-92): up to 3 attempts for one page; returns the page's
`results` list on the first 200 together with the number of HTTP attempts
actually issued, or `none` after 3 failed attempts (3 requests issued). -/
def tryPage (env : ApiEnv) (page : Nat) : Option (List Dataset) × Nat :=
  match env.search_page page 1 with
  | .ok rs => (some rs, 1)
  | _ =>
    match env.search_page page 2 with
    | .ok rs => (some rs, 2)
    | _ =>
      match env.search_page page 3 with
      | .ok rs => (some rs, 3)
      | _ => (none, 3)

/-- Observable outcome of one run of the page loop: the accumulated `results`,
the number of page HTTP requests issued, which page indices were attempted
(in order), and the reported failure `(page+1, retries)` from the
`st.error` on dashboard.py:97, if any. -/
structure FetchOutcome where
  results : List Dataset
  requests : Nat
  pagesAttempted : List Nat
  failure : Option (Nat × Nat)
deriving DecidableEq

/-- The `for page in range(total_pages)` loop of
`_search_datasets_paginated_reliable` (dashboard.py:75-100), over an explicit
list of page indices: on a page's success its `results` are appended and the
loop continues; when a page exhausts its 3 attempts the loop breaks, reporting
`(page+1, 3)`. -/
def fetchLoop (env : ApiEnv) : List Nat → FetchOutcome
  | [] => ⟨[], 0, [], none⟩
  | p :: rest =>
    match tryPage env p with
    | (some rs, a) =>
      let o := fetchLoop env rest
      ⟨rs ++ o.results, a + o.requests, p :: o.pagesAttempted, o.failure⟩
    | (none, a) => ⟨[], a, [p], some (p + 1, 3)⟩

/-- `_search_datasets_paginated_reliable` (dashboard.py:64-102): query the
total via `get_dataset_count` (which may raise), compute
`total_pages = (min(limit, total) + 999) // 1000`, and run the page loop. -/
def _search_datasets_paginated_reliable (env : ApiEnv) (limit : Nat) :
    Except Unit FetchOutcome :=
  match get_dataset_count env with
  | .error e => .error e
  | .ok total_count =>
    let rows_per_page := 1000
    let total_pages := (min limit total_count + rows_per_page - 1) / rows_per_page
    .ok (fetchLoop env (List.range total_pages))

/-- Content of `dataset_cache.json` when the file exists: either a valid JSON
serialization of a dataset list, or bytes on which `json.load` raises. -/
inductive CacheFile where
  | valid (data : List Dataset)
  | corrupt
deriving DecidableEq

/-- The mutable state `search_datasets_paginated` touches: the
`st.session_state.refresh_cache` flag, the cache file (`none` = absent), and
the `st.cache_data` memoized entries (entry type abstract). -/
structure DashState (μ : Type) where
  refresh_cache : Bool
  cacheFile : Option CacheFile
  memo : List μ
deriving DecidableEq

deriving instance DecidableEq for Except

/-- Result of one call of `search_datasets_paginated`: the returned value (or
uncaught exception), the state after the call, and — when the cached-file path
was not taken — the outcome of the inner `_search_datasets_paginated_reliable`
call (`none` when no fetch was attempted). -/
structure LoadResult (μ : Type) where
  value : Except Unit (List Dataset)
  state : DashState μ
  fetched : Option (Except Unit FetchOutcome)
deriving DecidableEq

/-- The manual-refresh prologue (dashboard.py:107-111): if the flag is set,
clear it, delete the cache file if present, and clear all memoized entries. -/
def applyRefresh {μ : Type} (s : DashState μ) : DashState μ :=
  if s.refresh_cache then ⟨false, none, []⟩ else s

/-- The tail of `search_datasets_paginated` (dashboard.py:120-127): run the
reliable fetch (its uncaught exception propagates), then best-effort write the
result to the cache file, and return `data if data else []`. -/
def fetchAndCache {μ : Type} (env : ApiEnv) (s : DashState μ) (limit : Nat) : LoadResult μ :=
  match _search_datasets_paginated_reliable env limit with
  | .error e => ⟨.error e, s, some (.error e)⟩
  | .ok out =>
    ⟨.ok (if out.results.isEmpty then [] else out.results),
     if env.writeOk then { s with cacheFile := some (.valid out.results) } else s,
     some (.ok out)⟩

/-- `search_datasets_paginated` (dashboard.py:104-127): refresh prologue; then
if the cache file exists and deserializes, return its contents; on
deserialization failure delete the corrupt file; on no usable cache, fetch and
best-effort persist. -/
def search_datasets_paginated {μ : Type} (env : ApiEnv) (s : DashState μ)
    (limit : Nat) : LoadResult μ :=
  let s1 := applyRefresh s
  match s1.cacheFile with
  | some (.valid ds) => ⟨.ok ds, s1, none⟩
  | _ => fetchAndCache env { s1 with cacheFile := none } limit

/-- The inner `fetch_detail` of `get_all_org_details_parallel`
(dashboard.py:134-141): `organization_show` with all failures (non-200 or
exception) caught and turned into `None`.  A 200 whose `result` is falsy
(`None`/`{}`) is dropped by the `if result:` guard on dashboard.py:147; such
responses are modelled as `none` here as well. -/
def fetch_detail (env : ApiEnv) (org_id : String) : Option OrgDetail :=
  match env.organization_show org_id with
  | .ok d => some d
  | .badStatus _ => none
  | .exn => none

/-- Body of `get_all_org_details_parallel` (dashboard.py:143-156) after the
pool completes, parametrized by the completion order of the futures:
collect the successful details in completion order, compute the set of
fetched `name`s, and append a stub `{name: id, title: id}` for every submitted
id not covered. -/
def collectOrgDetails (env : ApiEnv) (org_ids : List String) (order : List String) :
    List OrgDetail :=
  let org_details := order.filterMap (fetch_detail env)
  let fetched_ids := org_details.filterMap OrgDetail.name
  org_details ++
    (org_ids.filter (fun oid => !(fetched_ids.contains oid))).map
      (fun oid => { name := some oid, title := some oid })

/-- `get_all_org_details_parallel` (dashboard.py:130-156): the submitted ids
come from `get_organizations` (whose uncaught exception propagates); `order`
is the completion order of the pool, a permutation of the submitted ids. -/
def get_all_org_details_parallel (env : ApiEnv) (order : List String) :
    Except Unit (List OrgDetail) :=
  match get_organizations env with
  | .error e => .error e
  | .ok org_ids => .ok (collectOrgDetails env org_ids order)

/-- One row of `df_datasets` (dashboard.py:170-178). -/
structure Row where
  title : Option String
  name : Option String
  organization : String
  org_id : String
  resources : Nat
  last_modified : String
  views : Int
deriving DecidableEq

/-- The per-record projection building one row of `df_datasets`
(dashboard.py:170-178): `d.get("organization", {}).get("title", "—")` etc. -/
def projectRow (d : Dataset) : Row :=
  { title := d.title
    name := d.name
    organization := (d.organization.bind Organization.title).getD "—"
    org_id := (d.organization.bind Organization.name).getD "unknown"
    resources := (d.resources.getD []).length
    last_modified := d.metadata_modified.getD "—"
    views := (d.tracking_summary.bind TrackingSummary.total).getD 0 }

/-- `df_datasets` (dashboard.py:170-178): the projected row table. -/
def df_datasets (dataset_data : List Dataset) : List Row :=
  dataset_data.map projectRow

/-- Distinct values of a list in first-occurrence order (the keys of a pandas
`value_counts` result, order abstracted to first occurrence). -/
def firstOccs (l : List String) : List String :=
  l.foldl (fun acc x => if x ∈ acc then acc else acc ++ [x]) []

/-- `value_counts().to_dict()` as a key → count association: each distinct
value of the column paired with its number of occurrences. -/
def value_counts (l : List String) : List (String × Nat) :=
  (firstOccs l).map (fun t => (t, l.count t))

/-- `org_dataset_count` (dashboard.py:181): datasets grouped by the displayed
organization title. -/
def org_dataset_count (rows : List Row) : List (String × Nat) :=
  value_counts (rows.map Row.organization)

/-! ### Lemmas about the page loop -/

lemma tryPage_first_ok {env : ApiEnv} {p : Nat} {rs : List Dataset}
    (h : env.search_page p 1 = .ok rs) : tryPage env p = (some rs, 1) := by
  simp [tryPage, h]

lemma fetchLoop_all_first_ok (env : ApiEnv) (pageData : Nat → List Dataset) :
    ∀ l : List Nat, (∀ p ∈ l, env.search_page p 1 = .ok (pageData p)) →
      fetchLoop env l = ⟨(l.map pageData).flatten, l.length, l, none⟩
  | [], _ => rfl
  | p :: rest, h => by
    have hp := tryPage_first_ok (h p (by simp))
    have ih := fetchLoop_all_first_ok env pageData rest (fun q hq => h q (by simp [hq]))
    simp [fetchLoop, hp, ih, Nat.add_comm]

lemma tryPage_all_fail {env : ApiEnv} {k : Nat}
    (h1 : ∀ rs, env.search_page k 1 ≠ .ok rs)
    (h2 : ∀ rs, env.search_page k 2 ≠ .ok rs)
    (h3 : ∀ rs, env.search_page k 3 ≠ .ok rs) :
    tryPage env k = (none, 3) := by
  unfold tryPage
  rcases e1 : env.search_page k 1 with r1 | c1 | _ <;>
    rcases e2 : env.search_page k 2 with r2 | c2 | _ <;>
      rcases e3 : env.search_page k 3 with r3 | c3 | _ <;>
        simp_all

lemma range_split {k P : Nat} (h : k < P) :
    List.range P = List.range k ++ k :: List.range' (k + 1) (P - (k + 1)) := by
  have h1 : List.range' k (P - k) = k :: List.range' (k + 1) (P - (k + 1)) := by
    have : P - k = (P - (k + 1)) + 1 := by omega
    rw [this, List.range'_succ]
  calc List.range P = List.range' 0 P := List.range_eq_range' P
    _ = List.range' 0 (P - k + k) := by congr 1; omega
    _ = List.range' 0 k ++ List.range' (0 + k) (P - k) :=
        (List.range'_append_1 0 k (P - k)).symm
    _ = List.range k ++ k :: List.range' (k + 1) (P - (k + 1)) := by
        rw [Nat.zero_add, h1, List.range_eq_range']

lemma reliable_ok {env : ApiEnv} {limit T : Nat}
    (hT : get_dataset_count env = .ok T) :
    _search_datasets_paginated_reliable env limit
      = .ok (fetchLoop env (List.range ((min limit T + 999) / 1000))) := by
  simp [_search_datasets_paginated_reliable, hT]


lemma tryPage_snd_of_none {env : ApiEnv} {p : Nat}
    (h : (tryPage env p).1 = none) : (tryPage env p).2 = 3 := by
  unfold tryPage at *
  rcases e1 : env.search_page p 1 with r1 | c1 | _ <;>
    rcases e2 : env.search_page p 2 with r2 | c2 | _ <;>
      rcases e3 : env.search_page p 3 with r3 | c3 | _ <;>
        simp_all

lemma fetchLoop_fail_after {env : ApiEnv} {pageData : Nat → List Dataset} :
    ∀ (good : List Nat) (bad : Nat) (rest : List Nat),
      (∀ p ∈ good, (tryPage env p).1 = some (pageData p)) →
      (tryPage env bad).1 = none →
      fetchLoop env (good ++ bad :: rest)
        = ⟨(good.map pageData).flatten,
           (good.map fun p => (tryPage env p).2).sum + 3,
           good ++ [bad],
           some (bad + 1, 3)⟩
  | [], bad, rest, _, hbad => by
    rcases htb : tryPage env bad with ⟨o, a⟩
    have ha : a = 3 := by
      have := tryPage_snd_of_none hbad
      rw [htb] at this; exact this
    rw [htb] at hbad
    simp only at hbad
    subst hbad; subst ha
    simp [fetchLoop, htb]
  | p :: good, bad, rest, hgood, hbad => by
    rcases htp : tryPage env p with ⟨o, a⟩
    have hp := hgood p (by simp)
    rw [htp] at hp
    simp only at hp
    subst hp
    have ih := fetchLoop_fail_after good bad rest
      (fun q hq => hgood q (by simp [hq])) hbad
    have ha : (tryPage env p).2 = a := by rw [htp]
    simp [fetchLoop, htp, ih, ha, Nat.add_assoc]

/-- **C1.** For every limit `L`, total `T` reported by the zero-row count
query, and page size 1000, on a fully successful run (every page request
answered 200 on its first attempt) the fetcher issues exactly
`⌈min(L,T)/1000⌉` page requests, attempts exactly those pages in order,
reports no failure, and the returned list is the concatenation of the pages'
`results` lists in page order, so its length is the sum of the page item
counts. -/
theorem C1_fetcher_full_success (env : ApiEnv) (limit T : Nat)
    (pageData : Nat → List Dataset)
    (hT : get_dataset_count env = .ok T)
    (hok : ∀ p, p < (min limit T + 999) / 1000 → env.search_page p 1 = .ok (pageData p)) :
    _search_datasets_paginated_reliable env limit
      = .ok { results := ((List.range ((min limit T + 999) / 1000)).map pageData).flatten,
              requests := min limit T ⌈/⌉ 1000,
              pagesAttempted := List.range ((min limit T + 999) / 1000),
              failure := none }
    ∧ (((List.range ((min limit T + 999) / 1000)).map pageData).flatten).length
        = ((List.range ((min limit T + 999) / 1000)).map fun p => (pageData p).length).sum := by
  have hloop := fetchLoop_all_first_ok env pageData
    (List.range ((min limit T + 999) / 1000))
    (fun p hp => hok p (List.mem_range.mp hp))
  constructor
  · rw [reliable_ok hT, hloop]
    simp [Nat.ceilDiv_eq_add_pred_div]
  · simp [List.length_flatten, List.map_map, Function.comp_def]

/-- Witness for C1: limit 10000, total 1500, every page empty and succeeding
on its first attempt. -/
theorem C1_fetcher_full_success_witness :
    _search_datasets_paginated_reliable
        { organization_list := .ok [], package_list := .ok [],
          package_show := fun _ => .badStatus 404,
          organization_show := fun _ => .badStatus 404,
          search_count := .ok 1500,
          search_page := fun _ _ => .ok [],
          writeOk := true } 10000
      = .ok { results := ((List.range ((min 10000 1500 + 999) / 1000)).map
                  fun _ => ([] : List Dataset)).flatten,
              requests := min 10000 1500 ⌈/⌉ 1000,
              pagesAttempted := List.range ((min 10000 1500 + 999) / 1000),
              failure := none }
    ∧ (((List.range ((min 10000 1500 + 999) / 1000)).map
          fun _ => ([] : List Dataset)).flatten).length
        = ((List.range ((min 10000 1500 + 999) / 1000)).map
            fun _ => ([] : List Dataset).length).sum :=
  C1_fetcher_full_success _ 10000 1500 (fun _ => []) rfl (fun _ _ => rfl)

/-- **C2.** If page `k` (0-based) fails on all 3 attempts while pages
`0..k-1` were fetched successfully, the fetcher attempts exactly pages
`0..k` and no page after `k`, reports the failure as page `k+1` (1-based)
with attempt count 3, and returns exactly the concatenation of pages
`0..k-1`. -/
theorem C2_fetcher_page_failure (env : ApiEnv) (limit T k : Nat)
    (pageData : Nat → List Dataset)
    (hT : get_dataset_count env = .ok T)
    (hk : k < (min limit T + 999) / 1000)
    (hgood : ∀ p, p < k → (tryPage env p).1 = some (pageData p))
    (h1 : ∀ rs, env.search_page k 1 ≠ .ok rs)
    (h2 : ∀ rs, env.search_page k 2 ≠ .ok rs)
    (h3 : ∀ rs, env.search_page k 3 ≠ .ok rs) :
    _search_datasets_paginated_reliable env limit
      = .ok { results := ((List.range k).map pageData).flatten,
              requests := ((List.range k).map fun p => (tryPage env p).2).sum + 3,
              pagesAttempted := List.range (k + 1),
              failure := some (k + 1, 3) } := by
  have hfail : (tryPage env k).1 = none := by rw [tryPage_all_fail h1 h2 h3]
  have hloop := fetchLoop_fail_after (List.range k) k
    (List.range' (k + 1) ((min limit T + 999) / 1000 - (k + 1)))
    (fun p hp => hgood p (List.mem_range.mp hp)) hfail
  rw [reliable_ok hT, range_split hk, hloop, ← List.range_succ]

/-- Witness for C2: limit 10000, total 2500 (3 pages), pages 0 and 1 succeed
with empty results, page 2 returns HTTP 500 on all 3 attempts. -/
theorem C2_fetcher_page_failure_witness :
    _search_datasets_paginated_reliable
        { organization_list := .ok [], package_list := .ok [],
          package_show := fun _ => .badStatus 404,
          organization_show := fun _ => .badStatus 404,
          search_count := .ok 2500,
          search_page := fun p _ => if p < 2 then .ok [] else .badStatus 500,
          writeOk := true } 10000
      = .ok { results := ((List.range 2).map fun _ => ([] : List Dataset)).flatten,
              requests := ((List.range 2).map fun p =>
                  (tryPage { organization_list := .ok [], package_list := .ok [],
                             package_show := fun _ => .badStatus 404,
                             organization_show := fun _ => .badStatus 404,
                             search_count := .ok 2500,
                             search_page := fun p _ => if p < 2 then .ok [] else .badStatus 500,
                             writeOk := true } p).2).sum + 3,
              pagesAttempted := List.range (2 + 1),
              failure := some (2 + 1, 3) } :=
  C2_fetcher_page_failure _ 10000 2500 2 (fun _ => []) rfl (by decide)
    (fun p hp => by simp [tryPage, hp])
    (fun rs h => by simp at h)
    (fun rs h => by simp at h)
    (fun rs h => by simp at h)

/-! ### Lemmas about the cache layer -/

lemma applyRefresh_of_false {μ : Type} {s : DashState μ} (h : s.refresh_cache = false) :
    applyRefresh s = s := by
  simp [applyRefresh, h]

lemma applyRefresh_of_true {μ : Type} {s : DashState μ} (h : s.refresh_cache = true) :
    applyRefresh s = ⟨false, none, []⟩ := by
  simp [applyRefresh, h]

lemma applyRefresh_flag {μ : Type} (s : DashState μ) :
    (applyRefresh s).refresh_cache = false := by
  unfold applyRefresh
  cases h : s.refresh_cache <;> simp [h]

lemma if_isEmpty_self (l : List Dataset) : (if l.isEmpty then [] else l) = l := by
  cases l <;> simp

lemma load_cache_hit {μ : Type} (env : ApiEnv) (limit : Nat) {s : DashState μ}
    {D : List Dataset}
    (hflag : s.refresh_cache = false) (hfile : s.cacheFile = some (.valid D)) :
    search_datasets_paginated env s limit = ⟨.ok D, s, none⟩ := by
  simp [search_datasets_paginated, applyRefresh_of_false hflag, hfile]

lemma load_no_valid_cache {μ : Type} (env : ApiEnv) (limit : Nat) {s : DashState μ}
    (hflag : s.refresh_cache = false)
    (hfile : s.cacheFile = none ∨ s.cacheFile = some .corrupt) :
    search_datasets_paginated env s limit
      = fetchAndCache env { s with cacheFile := none } limit := by
  rcases hfile with h | h <;>
    simp [search_datasets_paginated, applyRefresh_of_false hflag, h]

lemma load_of_refresh {μ : Type} (env : ApiEnv) (limit : Nat) {s : DashState μ}
    (hflag : s.refresh_cache = true) :
    search_datasets_paginated env s limit
      = fetchAndCache env (⟨false, none, []⟩ : DashState μ) limit := by
  simp [search_datasets_paginated, applyRefresh_of_true hflag]

lemma fetchAndCache_of_ok {μ : Type} {env : ApiEnv} {limit : Nat} {out : FetchOutcome}
    (s : DashState μ)
    (hres : _search_datasets_paginated_reliable env limit = .ok out) :
    fetchAndCache env s limit
      = ⟨.ok out.results,
         if env.writeOk then { s with cacheFile := some (.valid out.results) } else s,
         some (.ok out)⟩ := by
  simp [fetchAndCache, hres, if_isEmpty_self]

lemma fetchAndCache_of_error {μ : Type} {env : ApiEnv} {limit : Nat} {e : Unit}
    (s : DashState μ)
    (hres : _search_datasets_paginated_reliable env limit = .error e) :
    fetchAndCache env s limit = ⟨.error e, s, some (.error e)⟩ := by
  simp [fetchAndCache, hres]

lemma load_cases {μ : Type} (env : ApiEnv) (s : DashState μ) (limit : Nat) :
    (∃ ds, (applyRefresh s).cacheFile = some (.valid ds)
        ∧ search_datasets_paginated env s limit = ⟨.ok ds, applyRefresh s, none⟩)
    ∨ search_datasets_paginated env s limit
        = fetchAndCache env { applyRefresh s with cacheFile := none } limit := by
  rcases h : (applyRefresh s).cacheFile with _ | cf
  · right; simp [search_datasets_paginated, h]
  · rcases cf with ds | _
    · left; exact ⟨ds, rfl, by simp [search_datasets_paginated, h]⟩
    · right; simp [search_datasets_paginated, h]

lemma load_state_of_fetched_ok {μ : Type} {env : ApiEnv} {s : DashState μ}
    {limit : Nat} {out : FetchOutcome}
    (hw : env.writeOk = true)
    (hfetched : (search_datasets_paginated env s limit).fetched = some (.ok out)) :
    (search_datasets_paginated env s limit).state.cacheFile = some (.valid out.results)
    ∧ (search_datasets_paginated env s limit).state.refresh_cache = false
    ∧ _search_datasets_paginated_reliable env limit = .ok out := by
  rcases load_cases env s limit with ⟨ds, _, heq⟩ | heq
  · rw [heq] at hfetched; simp at hfetched
  · rcases hres : _search_datasets_paginated_reliable env limit with e | out2
    · rw [heq, fetchAndCache_of_error _ hres] at hfetched
      simp at hfetched
    · rw [heq, fetchAndCache_of_ok _ hres] at hfetched ⊢
      simp at hfetched
      subst hfetched
      refine ⟨by simp [hw], by simp [hw, applyRefresh_flag], rfl⟩

lemma fetchAndCache_state_fields {μ : Type} (env : ApiEnv) (s : DashState μ) (limit : Nat) :
    (fetchAndCache env s limit).state.refresh_cache = s.refresh_cache
    ∧ (fetchAndCache env s limit).state.memo = s.memo
    ∧ (fetchAndCache env s limit).fetched
        = some (_search_datasets_paginated_reliable env limit) := by
  rcases hres : _search_datasets_paginated_reliable env limit with e | out
  · rw [fetchAndCache_of_error _ hres]; exact ⟨rfl, rfl, rfl⟩
  · rw [fetchAndCache_of_ok _ hres]
    cases hw : env.writeOk <;> simp [hw]

/-! ### Shared concrete environments for witnesses and counterexamples -/

/-- Count query reports 1000 datasets; every page request answers HTTP 500;
the cache-file write succeeds. -/
def envPageFail : ApiEnv :=
  { organization_list := .ok [], package_list := .ok [],
    package_show := fun _ => .badStatus 404,
    organization_show := fun _ => .badStatus 404,
    search_count := .ok 1000,
    search_page := fun _ _ => .badStatus 500,
    writeOk := true }

/-- The zero-row count request raises (e.g. a timeout). -/
def envCountExn : ApiEnv :=
  { organization_list := .ok [], package_list := .ok [],
    package_show := fun _ => .badStatus 404,
    organization_show := fun _ => .badStatus 404,
    search_count := .exn,
    search_page := fun _ _ => .badStatus 500,
    writeOk := true }

/-- A one-field dataset record used as concrete page content. -/
def sampleDataset : Dataset :=
  { title := some "t", name := some "n", organization := none, resources := none,
    metadata_modified := none, tags := none, tracking_summary := none }

/-- Count query reports 1 dataset; the single page answers 200 with one
record; the cache-file write succeeds. -/
def envOnePage : ApiEnv :=
  { organization_list := .ok [], package_list := .ok [],
    package_show := fun _ => .badStatus 404,
    organization_show := fun _ => .badStatus 404,
    search_count := .ok 1,
    search_page := fun _ _ => .ok [sampleDataset],
    writeOk := true }

/-- **C7.** When the manual-refresh flag is set at the start of a load, the
load behaves exactly as on the reset state (flag cleared, cache file deleted,
memo cleared): the prior cache file is never consulted, the final state has
the flag cleared and the memoized entries cleared, and a fresh paginated
fetch is always performed. -/
theorem C7_manual_refresh {μ : Type} (env : ApiEnv) (s : DashState μ) (limit : Nat)
    (h : s.refresh_cache = true) :
    search_datasets_paginated env s limit
        = search_datasets_paginated env (⟨false, none, []⟩ : DashState μ) limit
      ∧ (search_datasets_paginated env s limit).state.refresh_cache = false
      ∧ (search_datasets_paginated env s limit).state.memo = []
      ∧ (search_datasets_paginated env s limit).fetched
          = some (_search_datasets_paginated_reliable env limit) := by
  have h0 := load_of_refresh env limit h
  have h1 : search_datasets_paginated env (⟨false, none, []⟩ : DashState μ) limit
      = fetchAndCache env (⟨false, none, []⟩ : DashState μ) limit :=
    load_no_valid_cache env limit rfl (Or.inl rfl)
  have hf := fetchAndCache_state_fields env (⟨false, none, []⟩ : DashState μ) limit
  exact ⟨h0.trans h1.symm,
    by rw [h0]; exact hf.1,
    by rw [h0]; exact hf.2.1,
    by rw [h0]; exact hf.2.2⟩

/-- Witness for C7: flag set over a valid non-empty cache file and a
non-empty memo; the fetch against `envPageFail` is performed anyway. -/
theorem C7_manual_refresh_witness :
    search_datasets_paginated envPageFail
        (⟨true, some (.valid [sampleDataset]), [()]⟩ : DashState Unit) 10000
        = search_datasets_paginated envPageFail (⟨false, none, []⟩ : DashState Unit) 10000
      ∧ (search_datasets_paginated envPageFail
          (⟨true, some (.valid [sampleDataset]), [()]⟩ : DashState Unit) 10000).state.refresh_cache
          = false
      ∧ (search_datasets_paginated envPageFail
          (⟨true, some (.valid [sampleDataset]), [()]⟩ : DashState Unit) 10000).state.memo = []
      ∧ (search_datasets_paginated envPageFail
          (⟨true, some (.valid [sampleDataset]), [()]⟩ : DashState Unit) 10000).fetched
          = some (_search_datasets_paginated_reliable envPageFail 10000) :=
  C7_manual_refresh envPageFail _ 10000 rfl

/-- **C4 is false as stated:** a run on which page 1 exhausted its 3 attempts
(a partial fetch, here with empty accumulated results) still creates the
cache file: starting from no cache file, the load against `envPageFail`
records the failed fetch outcome yet leaves a valid cache file behind. -/
theorem C4_counterexample :
    (search_datasets_paginated envPageFail
        (⟨false, none, []⟩ : DashState Unit) 10000).fetched
        = some (.ok ⟨[], 3, [0], some (1, 3)⟩)
      ∧ (search_datasets_paginated envPageFail
          (⟨false, none, []⟩ : DashState Unit) 10000).state.cacheFile
        = some (.valid []) :=
  ⟨rfl, rfl⟩

/-- **C4 (amended).** The cache artifact is written in a single write after
the paginated fetch run completes — whether the run was fully successful or
terminated early by a page that exhausted its retries — so the cache file can
hold a partial snapshot; it always holds exactly the run's accumulated
results. -/
theorem C4_write_after_any_run {μ : Type} (env : ApiEnv) (s : DashState μ)
    (limit : Nat) (out : FetchOutcome)
    (hflag : s.refresh_cache = false)
    (hmiss : s.cacheFile = none ∨ s.cacheFile = some .corrupt)
    (hres : _search_datasets_paginated_reliable env limit = .ok out)
    (hw : env.writeOk = true) :
    (search_datasets_paginated env s limit).state.cacheFile = some (.valid out.results)
      ∧ (search_datasets_paginated env s limit).value = .ok out.results := by
  rw [load_no_valid_cache env limit hflag hmiss, fetchAndCache_of_ok _ hres]
  simp [hw]

/-- Witness for the amended C4: the partial (failed) run against
`envPageFail` writes its accumulated results to the cache file. -/
theorem C4_write_after_any_run_witness :
    (search_datasets_paginated envPageFail
        (⟨false, none, []⟩ : DashState Unit) 10000).state.cacheFile
        = some (.valid (⟨[], 3, [0], some (1, 3)⟩ : FetchOutcome).results)
      ∧ (search_datasets_paginated envPageFail
          (⟨false, none, []⟩ : DashState Unit) 10000).value
        = .ok (⟨[], 3, [0], some (1, 3)⟩ : FetchOutcome).results :=
  C4_write_after_any_run envPageFail _ 10000 ⟨[], 3, [0], some (1, 3)⟩
    rfl (Or.inl rfl) rfl rfl

/-- **C6 is false as stated:** the load is not total — with a corrupt cache
file and a count query that raises (`envCountExn`), the uncaught exception of
`get_dataset_count` propagates out of `search_datasets_paginated`. -/
theorem C6_counterexample :
    (search_datasets_paginated envCountExn
        (⟨false, some .corrupt, []⟩ : DashState Unit) 10000).value = .error () :=
  rfl

/-- **C6 (amended).** With the manual-refresh flag unset and provided the
zero-row count query's HTTP call does not raise, the load always returns a
list: a valid cache file is returned as-is without fetching; a corrupt cache
file is deleted (the final state never retains a corrupt file) and a fresh
paginated fetch is performed.  (When the count query raises on a cache miss,
the exception propagates — see the counterexample.) -/
theorem C6_load_when_count_returns {μ : Type} (env : ApiEnv) (s : DashState μ)
    (limit T : Nat)
    (hflag : s.refresh_cache = false)
    (hcount : get_dataset_count env = .ok T) :
    (∃ l, (search_datasets_paginated env s limit).value = .ok l)
      ∧ (∀ ds, s.cacheFile = some (.valid ds) →
          search_datasets_paginated env s limit = ⟨.ok ds, s, none⟩)
      ∧ (s.cacheFile = some .corrupt →
          (search_datasets_paginated env s limit).fetched
              = some (.ok (fetchLoop env (List.range ((min limit T + 999) / 1000))))
            ∧ (search_datasets_paginated env s limit).state.cacheFile ≠ some .corrupt) := by
  have hrel := @reliable_ok env limit T hcount
  refine ⟨?_, fun ds h => load_cache_hit env limit hflag h, fun hc => ?_⟩
  · rcases hfile : s.cacheFile with _ | cf
    · rw [load_no_valid_cache env limit hflag (Or.inl hfile), fetchAndCache_of_ok _ hrel]
      exact ⟨_, rfl⟩
    · rcases cf with ds | _
      · rw [load_cache_hit env limit hflag hfile]; exact ⟨ds, rfl⟩
      · rw [load_no_valid_cache env limit hflag (Or.inr hfile), fetchAndCache_of_ok _ hrel]
        exact ⟨_, rfl⟩
  · rw [load_no_valid_cache env limit hflag (Or.inr hc), fetchAndCache_of_ok _ hrel]
    refine ⟨rfl, ?_⟩
    cases hw : env.writeOk <;> simp [hw]

/-- Witness for the amended C6: corrupt cache file, count query answering
1000 — the corrupt file is deleted and a fetch is performed. -/
theorem C6_load_when_count_returns_witness :
    (search_datasets_paginated envPageFail
        (⟨false, some .corrupt, []⟩ : DashState Unit) 10000).fetched
        = some (.ok (fetchLoop envPageFail (List.range ((min 10000 1000 + 999) / 1000))))
      ∧ (search_datasets_paginated envPageFail
          (⟨false, some .corrupt, []⟩ : DashState Unit) 10000).state.cacheFile
        ≠ some .corrupt :=
  (C6_load_when_count_returns envPageFail _ 10000 1000 rfl rfl).2.2 rfl

/-- **C8.** Write-then-read round trip: whenever a load performed a fetch
whose run produced results `D = out.results` and the cache write succeeded,
a subsequent load (any API behaviour, flag unset as left by the first load)
returns exactly `D` from the cache file without fetching. -/
theorem C8_cache_round_trip {μ : Type} (env1 env2 : ApiEnv) (s : DashState μ)
    (limit : Nat) (out : FetchOutcome)
    (hw : env1.writeOk = true)
    (hfetched : (search_datasets_paginated env1 s limit).fetched = some (.ok out)) :
    (search_datasets_paginated env2
        (search_datasets_paginated env1 s limit).state limit).value = .ok out.results
      ∧ (search_datasets_paginated env2
          (search_datasets_paginated env1 s limit).state limit).fetched = none := by
  obtain ⟨hcf, hflag, -⟩ := load_state_of_fetched_ok hw hfetched
  rw [load_cache_hit env2 limit hflag hcf]
  exact ⟨rfl, rfl⟩

/-- Witness for C8: a successful one-page fetch against `envOnePage` writes
`[sampleDataset]`; the next load (against `envPageFail`) returns it from the
cache without fetching. -/
theorem C8_cache_round_trip_witness :
    (search_datasets_paginated envPageFail
        (search_datasets_paginated envOnePage
          (⟨false, none, []⟩ : DashState Unit) 10000).state 10000).value
        = .ok (⟨[sampleDataset], 1, [0], none⟩ : FetchOutcome).results
      ∧ (search_datasets_paginated envPageFail
          (search_datasets_paginated envOnePage
            (⟨false, none, []⟩ : DashState Unit) 10000).state 10000).fetched = none :=
  C8_cache_round_trip envOnePage envPageFail _ 10000 ⟨[sampleDataset], 1, [0], none⟩ rfl rfl

/-- Count query reports 0 datasets; the cache-file write succeeds. -/
def envEmptyCatalog : ApiEnv :=
  { organization_list := .ok [], package_list := .ok [],
    package_show := fun _ => .badStatus 404,
    organization_show := fun _ => .badStatus 404,
    search_count := .ok 0,
    search_page := fun _ _ => .badStatus 500,
    writeOk := true }

/-- **C10.** If the zero-row count query returns 0 — empty catalog, or a
non-200 answer normalized to 0 — the fetcher computes zero pages, issues no
page requests and attempts no page, returning `[]`; on a cache miss the
cache layer writes this empty list to the cache file, and a subsequent load
(any API behaviour `env2`, flag unset) returns the cached empty list without
invoking the fetcher. -/
theorem C10_zero_count_caches_empty {μ : Type} (env env2 : ApiEnv) (s : DashState μ)
    (limit : Nat)
    (hcount : get_dataset_count env = .ok 0)
    (hflag : s.refresh_cache = false) (hfile : s.cacheFile = none)
    (hw : env.writeOk = true) :
    _search_datasets_paginated_reliable env limit = .ok ⟨[], 0, [], none⟩
      ∧ (search_datasets_paginated env s limit).value = .ok []
      ∧ (search_datasets_paginated env s limit).state.cacheFile = some (.valid [])
      ∧ (search_datasets_paginated env2
            (search_datasets_paginated env s limit).state limit).value = .ok []
      ∧ (search_datasets_paginated env2
            (search_datasets_paginated env s limit).state limit).fetched = none := by
  have hzero : (min limit 0 + 999) / 1000 = 0 := by
    rw [Nat.min_zero]
  have hrel : _search_datasets_paginated_reliable env limit = .ok ⟨[], 0, [], none⟩ := by
    rw [reliable_ok hcount, hzero]
    rfl
  have hload := load_no_valid_cache env limit hflag (Or.inl hfile)
  have hfc := fetchAndCache_of_ok { s with cacheFile := none } hrel
  have hstate : (search_datasets_paginated env s limit).state
      = { s with cacheFile := some (.valid []) } := by
    rw [hload, hfc]; simp [hw]
  have hhit : search_datasets_paginated env2
        ({ s with cacheFile := some (.valid ([] : List Dataset)) } : DashState μ) limit
      = ⟨.ok [], { s with cacheFile := some (.valid []) }, none⟩ :=
    load_cache_hit env2 limit hflag rfl
  refine ⟨hrel, by rw [hload, hfc], by rw [hstate], ?_, ?_⟩
  · rw [hstate, hhit]
  · rw [hstate, hhit]

/-- Witness for C10: `envEmptyCatalog` reports 0; the load caches `[]` and
the next load (against `envPageFail`) serves it from the cache file. -/
theorem C10_zero_count_caches_empty_witness :
    _search_datasets_paginated_reliable envEmptyCatalog 10000 = .ok ⟨[], 0, [], none⟩
      ∧ (search_datasets_paginated envEmptyCatalog
            (⟨false, none, []⟩ : DashState Unit) 10000).value = .ok []
      ∧ (search_datasets_paginated envEmptyCatalog
            (⟨false, none, []⟩ : DashState Unit) 10000).state.cacheFile = some (.valid [])
      ∧ (search_datasets_paginated envPageFail
            (search_datasets_paginated envEmptyCatalog
              (⟨false, none, []⟩ : DashState Unit) 10000).state 10000).value = .ok []
      ∧ (search_datasets_paginated envPageFail
            (search_datasets_paginated envEmptyCatalog
              (⟨false, none, []⟩ : DashState Unit) 10000).state 10000).fetched = none :=
  C10_zero_count_caches_empty envEmptyCatalog envPageFail _ 10000 rfl rfl rfl rfl

/-- Every request of every endpoint raises (e.g. the network is down). -/
def envAllExn : ApiEnv :=
  { organization_list := .exn, package_list := .exn,
    package_show := fun _ => .exn,
    organization_show := fun _ => .exn,
    search_count := .exn,
    search_page := fun _ _ => .exn,
    writeOk := true }

/-- **C3 is false as stated:** when the underlying HTTP call raises (timeout,
connection error, malformed JSON), each of the five API Client operations
propagates the exception instead of returning its neutral empty value. -/
theorem C3_counterexample :
    get_organizations envAllExn = .error ()
      ∧ get_datasets envAllExn = .error ()
      ∧ get_dataset_detail envAllExn "x" = .error ()
      ∧ get_org_detail envAllExn "x" = .error ()
      ∧ get_dataset_count envAllExn = .error () :=
  ⟨rfl, rfl, rfl, rfl, rfl⟩

/-- **C3 (amended).** Each API Client operation normalizes only a non-200
status to its neutral empty value (`[]`, `None`, or `0`) and passes a 200
body through; a transport-level failure or malformed JSON body is not
caught: the operation raises exactly when its underlying HTTP call
raises. -/
theorem C3_api_client_neutralization (env : ApiEnv) (id : String) :
    (get_organizations env = .error () ↔ env.organization_list = .exn)
      ∧ (∀ c, env.organization_list = .badStatus c → get_organizations env = .ok [])
      ∧ (∀ v, env.organization_list = .ok v → get_organizations env = .ok v)
      ∧ (get_datasets env = .error () ↔ env.package_list = .exn)
      ∧ (∀ c, env.package_list = .badStatus c → get_datasets env = .ok [])
      ∧ (∀ v, env.package_list = .ok v → get_datasets env = .ok v)
      ∧ (get_dataset_detail env id = .error () ↔ env.package_show id = .exn)
      ∧ (∀ c, env.package_show id = .badStatus c → get_dataset_detail env id = .ok none)
      ∧ (∀ v, env.package_show id = .ok v → get_dataset_detail env id = .ok (some v))
      ∧ (get_org_detail env id = .error () ↔ env.organization_show id = .exn)
      ∧ (∀ c, env.organization_show id = .badStatus c → get_org_detail env id = .ok none)
      ∧ (∀ v, env.organization_show id = .ok v → get_org_detail env id = .ok (some v))
      ∧ (get_dataset_count env = .error () ↔ env.search_count = .exn)
      ∧ (∀ c, env.search_count = .badStatus c → get_dataset_count env = .ok 0)
      ∧ (∀ n, env.search_count = .ok n → get_dataset_count env = .ok n) := by
  refine ⟨?_, ?_, ?_, ?_, ?_, ?_, ?_, ?_, ?_, ?_, ?_, ?_, ?_, ?_, ?_⟩
  · cases h : env.organization_list <;> simp [get_organizations, h]
  · intro c h; simp [get_organizations, h]
  · intro v h; simp [get_organizations, h]
  · cases h : env.package_list <;> simp [get_datasets, h]
  · intro c h; simp [get_datasets, h]
  · intro v h; simp [get_datasets, h]
  · cases h : env.package_show id <;> simp [get_dataset_detail, h]
  · intro c h; simp [get_dataset_detail, h]
  · intro v h; simp [get_dataset_detail, h]
  · cases h : env.organization_show id <;> simp [get_org_detail, h]
  · intro c h; simp [get_org_detail, h]
  · intro v h; simp [get_org_detail, h]
  · cases h : env.search_count <;> simp [get_dataset_count, h]
  · intro c h; simp [get_dataset_count, h]
  · intro n h; simp [get_dataset_count, h]

/-- Witness for the amended C3: against `envPageFail`, the count query passes
its 200 body through and the 404 of `package_show` is normalized to `None`. -/
theorem C3_api_client_neutralization_witness :
    get_dataset_count envPageFail = .ok 1000
      ∧ get_dataset_detail envPageFail "x" = .ok none := by
  have h := C3_api_client_neutralization envPageFail "x"
  exact ⟨h.2.2.2.2.2.2.2.2.2.2.2.2.2.2 1000 rfl, h.2.2.2.2.2.2.2.1 404 rfl⟩

/-! ### Lemmas about the parallel detail fetcher -/

lemma countP_details (fetch : String → Option OrgDetail)
    (hname : ∀ oid d, fetch oid = some d → d.name = some oid) (id : String) :
    ∀ order : List String,
      (order.filterMap fetch).countP (fun d => decide (d.name = some id))
        = order.countP (fun x => decide (x = id) && (fetch x).isSome)
  | [] => rfl
  | x :: xs => by
    have ih := countP_details fetch hname id xs
    rcases hfx : fetch x with _ | d
    · simp [List.filterMap_cons, hfx, ih, List.countP_cons]
    · have hn := hname x d hfx
      by_cases hx : x = id
      · subst hx
        simp [List.filterMap_cons, hfx, List.countP_cons, hn, ih]
      · simp [List.filterMap_cons, hfx, List.countP_cons, hn, hx, ih]

lemma countP_decide_and (id : String) (q : String → Bool) :
    ∀ l : List String,
      l.countP (fun x => decide (x = id) && q x) = if q id then l.count id else 0
  | [] => by simp
  | x :: xs => by
    have ih := countP_decide_and id q xs
    by_cases hx : x = id
    · subst hx
      cases hq : q x <;>
        simp [List.countP_cons, List.count_cons, hq, ih]
    · cases hq : q id <;>
        simp [List.countP_cons, List.count_cons, hx, ih, hq, Ne.symm hx]

lemma mem_fetched_ids {fetch : String → Option OrgDetail}
    (hname : ∀ oid d, fetch oid = some d → d.name = some oid)
    {order : List String} {id : String} :
    id ∈ (order.filterMap fetch).filterMap OrgDetail.name
      ↔ id ∈ order ∧ (fetch id).isSome := by
  constructor
  · intro h
    rcases List.mem_filterMap.mp h with ⟨d, hd, hdn⟩
    rcases List.mem_filterMap.mp hd with ⟨x, hx, hfx⟩
    have hn := hname x d hfx
    rw [hn] at hdn
    obtain rfl : x = id := by injection hdn
    exact ⟨hx, by simp [hfx]⟩
  · rintro ⟨hid, hs⟩
    rcases Option.isSome_iff_exists.mp hs with ⟨d, hfd⟩
    exact List.mem_filterMap.mpr ⟨d, List.mem_filterMap.mpr ⟨id, hid, hfd⟩, hname id d hfd⟩

lemma countP_stubs (org_ids fetched_ids : List String) (id : String) :
    ((org_ids.filter (fun oid => !(fetched_ids.contains oid))).map
        (fun oid => ({ name := some oid, title := some oid } : OrgDetail))).countP
      (fun d => decide (d.name = some id))
      = if fetched_ids.contains id then 0 else org_ids.count id := by
  rw [List.countP_map, List.countP_filter]
  have hcongr : org_ids.countP (fun a =>
        ((fun d => decide (d.name = some id)) ∘
          (fun oid => ({ name := some oid, title := some oid } : OrgDetail))) a
        && !(fetched_ids.contains a))
      = org_ids.countP (fun x => decide (x = id) && !(fetched_ids.contains x)) :=
    List.countP_congr (fun x _ => by simp [Function.comp])
  rw [hcongr, countP_decide_and]
  cases h : fetched_ids.contains id <;> simp [h]

/-- **C5.** For every identifier list `O` delivered by the organization-list
endpoint (distinct slugs, as CKAN returns), every pool completion order, and
any per-identifier outcomes whose successful detail records carry their own
identifier in `name`: the collection returned by the Parallel Detail Fetcher,
matched by `name`, covers exactly `O` — each id of `O` appears in exactly one
record, every record carries an id of `O`, an id whose fetch failed appears
as the fallback stub `{name: id, title: id}`, and an id whose fetch succeeded
appears as its fetched detail record. -/
theorem C5_parallel_details_cover (env : ApiEnv) (O order : List String)
    (hO : env.organization_list = .ok O)
    (hnodup : O.Nodup)
    (hperm : order.Perm O)
    (hname : ∀ oid d, fetch_detail env oid = some d → d.name = some oid) :
    get_all_org_details_parallel env order = .ok (collectOrgDetails env O order)
      ∧ (∀ id ∈ O, (collectOrgDetails env O order).countP
            (fun d => decide (d.name = some id)) = 1)
      ∧ (∀ d ∈ collectOrgDetails env O order, ∃ id ∈ O, d.name = some id)
      ∧ (∀ id ∈ O, fetch_detail env id = none →
          ({ name := some id, title := some id } : OrgDetail) ∈ collectOrgDetails env O order)
      ∧ (∀ id ∈ O, ∀ d, fetch_detail env id = some d →
          d ∈ collectOrgDetails env O order) := by
  have hcollect : collectOrgDetails env O order
      = order.filterMap (fetch_detail env)
        ++ (O.filter (fun oid =>
              !(((order.filterMap (fetch_detail env)).filterMap OrgDetail.name).contains oid))).map
            (fun oid => ({ name := some oid, title := some oid } : OrgDetail)) := rfl
  refine ⟨?_, ?_, ?_, ?_, ?_⟩
  · simp [get_all_org_details_parallel, get_organizations, hO]
  · intro id hid
    rw [hcollect, List.countP_append,
        countP_details (fetch_detail env) hname id order,
        countP_decide_and id (fun x => (fetch_detail env x).isSome) order,
        countP_stubs]
    have hcount1 : O.count id = 1 := List.count_eq_one_of_mem hnodup hid
    have hordercount : order.count id = 1 := by rw [hperm.count_eq]; exact hcount1
    by_cases hs : (fetch_detail env id).isSome
    · have hmem : id ∈ (order.filterMap (fetch_detail env)).filterMap OrgDetail.name :=
        (mem_fetched_ids hname).mpr ⟨hperm.mem_iff.mpr hid, hs⟩
      simp [hs, hmem, hordercount]
    · have hmem : id ∉ (order.filterMap (fetch_detail env)).filterMap OrgDetail.name :=
        fun hc => hs ((mem_fetched_ids hname).mp hc).2
      simp [hs, hmem, hcount1]
  · intro d hd
    rw [hcollect] at hd
    rcases List.mem_append.mp hd with hd | hd
    · rcases List.mem_filterMap.mp hd with ⟨x, hx, hfx⟩
      exact ⟨x, hperm.mem_iff.mp hx, hname x d hfx⟩
    · rcases List.mem_map.mp hd with ⟨oid, hoid, hstub⟩
      exact ⟨oid, (List.mem_filter.mp hoid).1, by rw [← hstub]⟩
  · intro id hid hnone
    rw [hcollect]
    refine List.mem_append.mpr (Or.inr (List.mem_map.mpr ⟨id, ?_, rfl⟩))
    refine List.mem_filter.mpr ⟨hid, ?_⟩
    have hmem : id ∉ (order.filterMap (fetch_detail env)).filterMap OrgDetail.name :=
      fun hc => by
        have := ((mem_fetched_ids hname).mp hc).2
        rw [hnone] at this
        exact absurd this (by simp)
    simp [hmem]
  · intro id hid d hfd
    rw [hcollect]
    exact List.mem_append.mpr (Or.inl
      (List.mem_filterMap.mpr ⟨id, hperm.mem_iff.mpr hid, hfd⟩))

/-- Organization list returns two slugs; the detail of `a` succeeds and the
detail of `b` answers HTTP 500. -/
def envC5 : ApiEnv :=
  { organization_list := .ok ["a", "b"], package_list := .ok [],
    package_show := fun _ => .badStatus 404,
    organization_show := fun oid =>
      if oid = "a" then .ok { name := some "a", title := some "Org A" }
      else .badStatus 500,
    search_count := .ok 0,
    search_page := fun _ _ => .badStatus 500,
    writeOk := true }

/-- Witness for C5: with ids `["a", "b"]`, completion order `["b", "a"]`, and
`b`'s detail fetch failing, `b` is covered exactly once and its stub is in
the output. -/
theorem C5_parallel_details_cover_witness :
    (collectOrgDetails envC5 ["a", "b"] ["b", "a"]).countP
        (fun d => decide (d.name = some "b")) = 1
      ∧ ({ name := some "b", title := some "b" } : OrgDetail)
          ∈ collectOrgDetails envC5 ["a", "b"] ["b", "a"] := by
  have hname : ∀ oid d, fetch_detail envC5 oid = some d → d.name = some oid := by
    intro oid d h
    by_cases ho : oid = "a"
    · subst ho
      simp [fetch_detail, envC5] at h
      rw [← h]
    · simp [fetch_detail, envC5, ho] at h
  have h := C5_parallel_details_cover envC5 ["a", "b"] ["b", "a"] rfl
    (by decide) (by decide) hname
  exact ⟨h.2.1 "b" (by simp), h.2.2.2.1 "b" (by simp) (by decide)⟩

/-! ### The three-record projection scenario -/

/-- The organization "Ministry A" with slug `min-a`. -/
def minA : Organization := { title := some "Ministry A", name := some "min-a" }

/-- First dataset of "Ministry A". -/
def dsA1 : Dataset :=
  { title := some "d1", name := some "d1", organization := some minA,
    resources := none, metadata_modified := none, tags := none,
    tracking_summary := none }

/-- Second dataset of "Ministry A". -/
def dsA2 : Dataset :=
  { title := some "d2", name := some "d2", organization := some minA,
    resources := none, metadata_modified := none, tags := none,
    tracking_summary := none }

/-- A dataset with no organization field. -/
def dsNoOrg : Dataset :=
  { title := some "d3", name := some "d3", organization := none,
    resources := none, metadata_modified := none, tags := none,
    tracking_summary := none }

/-- The 3-record scenario input. -/
def c9Input : List Dataset := [dsA1, dsA2, dsNoOrg]

/-- **C9 is false as stated:** on the 3-record scenario the projected
`organization` column is indeed `["Ministry A", "Ministry A", "—"]`, but the
grouped-by-organization count table is `{"Ministry A": 2, "—": 1}` — the "—"
placeholder row is grouped like any other title — so the table does not
equal `{"Ministry A": 2}`. -/
theorem C9_counterexample :
    (df_datasets c9Input).map Row.organization = ["Ministry A", "Ministry A", "—"]
      ∧ org_dataset_count (df_datasets c9Input) = [("Ministry A", 2), ("—", 1)]
      ∧ org_dataset_count (df_datasets c9Input) ≠ [("Ministry A", 2)] := by
  refine ⟨?_, ?_, ?_⟩ <;> decide

/-- **C9 (amended).** A record lacking the organization field projects to
organization "—" and org_id "unknown"; on the 3-record scenario the rows'
organization column is `["Ministry A", "Ministry A", "—"]` and the
grouped-by-organization count table maps "Ministry A" to 2 and the "—"
placeholder to 1 (the placeholder is a group of its own, so the table is not
just `{"Ministry A": 2}`). -/
theorem C9_projection_defaults (d : Dataset) (h : d.organization = none) :
    (projectRow d).organization = "—"
      ∧ (projectRow d).org_id = "unknown"
      ∧ (df_datasets c9Input).map Row.organization = ["Ministry A", "Ministry A", "—"]
      ∧ org_dataset_count (df_datasets c9Input) = [("Ministry A", 2), ("—", 1)] := by
  refine ⟨?_, ?_, by decide, by decide⟩ <;> simp [projectRow, h]

/-- Witness for the amended C9 at the record with no organization field. -/
theorem C9_projection_defaults_witness :
    (projectRow dsNoOrg).organization = "—"
      ∧ (projectRow dsNoOrg).org_id = "unknown"
      ∧ (df_datasets c9Input).map Row.organization = ["Ministry A", "Ministry A", "—"]
      ∧ org_dataset_count (df_datasets c9Input) = [("Ministry A", 2), ("—", 1)] :=
  C9_projection_defaults dsNoOrg rfl
